import Mathlib

/-!
Verification of the thallium pool layer (`include/thallium/pool.hpp`).

The C++ header wraps Argobots (`ABT_*`) native handles.  Native handles are
modelled as `Nat` (with `0` playing the role of the null handle), allocator
instances as explicit arenas, and the Argobots runtime state as explicit
records threaded through the functions.  Functions that the source reaches
through `TL_POOL_ASSERT` (throwing `pool_exception` on a non-`ABT_SUCCESS`
return code) are modelled with `Except pool_exception`.
-/

/-- Status code `ABT_SUCCESS` (0 in Argobots). -/
def ABT_SUCCESS : Int := 0

/-- Error code returned by Argobots when a pool handle is invalid. -/
def ABT_ERR_INV_POOL : Int := 5

/-- Error code returned by Argobots when a thread handle or state is invalid. -/
def ABT_ERR_INV_THREAD : Int := 6

/-- Error code returned by Argobots when a task handle or state is invalid. -/
def ABT_ERR_INV_TASK : Int := 7

/-- Error code returned by Argobots on memory exhaustion. -/
def ABT_ERR_MEM : Int := 12

/-- The null native pool handle `ABT_POOL_NULL`. -/
def ABT_POOL_NULL : Nat := 0

/-- `thallium::thread`: a wrapper storing a native `ABT_thread` handle
(field `m_thread`, constructor `thread(ABT_thread)`). -/
structure thread where
  m_thread : Nat
deriving DecidableEq

/-- `thread::native_handle()` returns the stored native handle. -/
def thread.native_handle (t : thread) : Nat := t.m_thread

/-- `thallium::task`: a wrapper storing a native `ABT_task` handle
(field `m_task`, constructor `task(ABT_task)`). -/
structure task where
  m_task : Nat
deriving DecidableEq

/-- `task::native_handle()` returns the stored native handle. -/
def task.native_handle (t : task) : Nat := t.m_task

/-- `thallium::unit_type`: the tag distinguishing thread units from task
units (from `unit_type.hpp`, mirrored by `ABT_unit_type`). -/
inductive unit_type where
  | thread_unit : unit_type
  | task_unit : unit_type
deriving DecidableEq

/-- An allocator arena: models one C++ allocator instance (one of the static
members `pool_allocator` / `unit_allocator` of `pool_def`, or the default
heap).  `live` maps addresses to the constructed objects, `next` is the next
fresh address; addresses start at 1 so 0 can serve as the null pointer. -/
structure Arena (A : Type) where
  next : Nat
  live : List (Nat × A)
deriving DecidableEq

/-- `allocator_traits::allocate` + `allocator_traits::construct`: place a new
object at a fresh address and return the address. -/
def Arena.alloc {A : Type} (a : Arena A) (x : A) : Arena A × Nat :=
  ({ next := a.next + 1, live := (a.next, x) :: a.live }, a.next)

/-- `allocator_traits::destroy` + `allocator_traits::deallocate`: remove the
object at the given address from the arena. -/
def Arena.free {A : Type} (a : Arena A) (addr : Nat) : Arena A :=
  { a with live := a.live.filter (fun e => decide (e.1 ≠ addr)) }

/-- Dereference: read the object at an address, `none` when no live object
is at that address (a dereference the C++ side would make undefined). -/
def Arena.lookup {A : Type} (a : Arena A) (addr : Nat) : Option A :=
  (a.live.find? (fun e => e.1 == addr)).map (fun e => e.2)

/-- In-place mutation of the object stored at an address (what a call
through `P*` does to the pointee). -/
def Arena.update {A : Type} (a : Arena A) (addr : Nat) (x : A) : Arena A :=
  { a with live := a.live.map (fun e => if e.1 = addr then (addr, x) else e) }

/-- Well-formedness of an arena: every live address was produced by `alloc`,
hence is below `next`. -/
def Arena.wf {A : Type} (a : Arena A) : Prop :=
  ∀ e ∈ a.live, e.1 < a.next

/-- The empty arena. -/
def Arena.empty (A : Type) : Arena A := { next := 1, live := [] }

/-- Memory state seen by the unit half of `pool_def`: the static
`unit_allocator` member and, separately, the default heap (so that theorems
can state that the adapter never touches the latter). -/
structure UnitMem (U : Type) where
  unit_allocator : Arena U
  heap : Arena U
deriving DecidableEq

/-- The model a custom unit type `U` must adhere to (documentation block of
`pool::create`): constructors from `thread` and `task`, observers
`get_type`, `get_thread`, `get_task`, `is_in_pool`. -/
structure UnitModel (U : Type) where
  ofThread : thread → U
  ofTask : task → U
  get_type : U → unit_type
  get_thread : U → thread
  get_task : U → task
  is_in_pool : U → Bool

/-- `pool_def::u_get_type`: cast the handle back to `U*` and read the tag. -/
def u_get_type {U : Type} (UM : UnitModel U) (ar : Arena U) (u : Nat) :
    Option unit_type :=
  (ar.lookup u).map UM.get_type

/-- `pool_def::u_get_thread`: cast the handle back to `U*` and return
`uu->get_thread().native_handle()`. -/
def u_get_thread {U : Type} (UM : UnitModel U) (ar : Arena U) (u : Nat) :
    Option Nat :=
  (ar.lookup u).map (fun uu => (UM.get_thread uu).native_handle)

/-- `pool_def::u_get_task`: cast the handle back to `U*` and return
`uu->get_task().native_handle()`. -/
def u_get_task {U : Type} (UM : UnitModel U) (ar : Arena U) (u : Nat) :
    Option Nat :=
  (ar.lookup u).map (fun uu => (UM.get_task uu).native_handle)

/-- `pool_def::u_is_in_pool`: cast the handle back to `U*` and read the
membership flag. -/
def u_is_in_pool {U : Type} (UM : UnitModel U) (ar : Arena U) (u : Nat) :
    Option Bool :=
  (ar.lookup u).map UM.is_in_pool

/-- `pool_def::u_create_from_thread`: allocate a `U` through the static
`unit_allocator` and construct it from `thread(t)`; the returned `ABT_unit`
is the address of the new object. -/
def u_create_from_thread {U : Type} (UM : UnitModel U) (mem : UnitMem U)
    (t : Nat) : UnitMem U × Nat :=
  let r := mem.unit_allocator.alloc (UM.ofThread (thread.mk t))
  ({ mem with unit_allocator := r.1 }, r.2)

/-- `pool_def::u_create_from_task`: allocate a `U` through the static
`unit_allocator` and construct it from `task(t)`. -/
def u_create_from_task {U : Type} (UM : UnitModel U) (mem : UnitMem U)
    (t : Nat) : UnitMem U × Nat :=
  let r := mem.unit_allocator.alloc (UM.ofTask (task.mk t))
  ({ mem with unit_allocator := r.1 }, r.2)

/-- `pool_def::u_free`: destroy and deallocate the `U` whose address is read
from the `ABT_unit*` slot, through the same static `unit_allocator`, then
write `nullptr` into the slot.  The second component is the value left in
the slot (`none` = null). -/
def u_free {U : Type} (mem : UnitMem U) (addr : Nat) :
    UnitMem U × Option Nat :=
  ({ mem with unit_allocator := mem.unit_allocator.free addr }, none)

/-- Freshly allocated objects are found by `lookup` at the returned
address. -/
theorem Arena.lookup_alloc {A : Type} (a : Arena A) (x : A) :
    (a.alloc x).1.lookup (a.alloc x).2 = some x := by
  simp [Arena.alloc, Arena.lookup]

/-- After `free addr`, `lookup addr` fails. -/
theorem Arena.lookup_free {A : Type} (a : Arena A) (addr : Nat) :
    (a.free addr).lookup addr = none := by
  simp only [Arena.free, Arena.lookup, Option.map_eq_none']
  rw [List.find?_eq_none]
  intro e he
  have := List.of_mem_filter he
  simpa using this

/-- Freeing the address just allocated in a well-formed arena restores the
live list exactly. -/
theorem Arena.free_alloc {A : Type} (a : Arena A) (x : A) (hwf : a.wf) :
    ((a.alloc x).1.free (a.alloc x).2).live = a.live := by
  simp only [Arena.alloc, Arena.free, List.filter]
  have h1 : (decide (a.next ≠ a.next)) = false := by simp
  simp only [h1]
  exact List.filter_eq_self.mpr (fun e he => by
    have := hwf e he
    simp [Nat.ne_of_lt this])

/-- Allocation in a well-formed arena keeps it well-formed. -/
theorem Arena.wf_alloc {A : Type} (a : Arena A) (x : A) (hwf : a.wf) :
    (a.alloc x).1.wf := by
  intro e he
  simp only [Arena.alloc] at he ⊢
  rcases List.mem_cons.mp he with h | h
  · simp [h]
  · exact Nat.lt_succ_of_lt (hwf e h)

/-- A concrete unit type adhering to the documented model: it stores the
`thread` and the `task` it was constructed from. -/
def prod_unit_model : UnitModel (thread × task) where
  ofThread t := (t, task.mk 0)
  ofTask k := (thread.mk 0, k)
  get_type _ := unit_type.thread_unit
  get_thread p := p.1
  get_task p := p.2
  is_in_pool _ := false

/-- C4: for every native thread handle `t` and unit type `U` adhering to the
documented model (constructing from a `thread` stores it and `get_thread`
returns it), `u_create_from_thread` followed by `u_get_thread` yields the
original handle `t`; symmetrically for task handles via
`u_create_from_task` and `u_get_task`. -/
theorem u_create_roundtrip {U : Type} (UM : UnitModel U) (mem : UnitMem U)
    (t k : Nat)
    (hthr : ∀ th, UM.get_thread (UM.ofThread th) = th)
    (htsk : ∀ tk, UM.get_task (UM.ofTask tk) = tk) :
    u_get_thread UM (u_create_from_thread UM mem t).1.unit_allocator
      (u_create_from_thread UM mem t).2 = some t ∧
    u_get_task UM (u_create_from_task UM mem k).1.unit_allocator
      (u_create_from_task UM mem k).2 = some k := by
  constructor
  · simp only [u_get_thread, u_create_from_thread]
    rw [Arena.lookup_alloc]
    simp [hthr, thread.native_handle]
  · simp only [u_get_task, u_create_from_task]
    rw [Arena.lookup_alloc]
    simp [htsk, task.native_handle]

/-- Witness for C4 at a concrete unit type and concrete handles. -/
theorem u_create_roundtrip_witness :
    u_get_thread prod_unit_model
      (u_create_from_thread prod_unit_model
        ⟨Arena.empty _, Arena.empty _⟩ 7).1.unit_allocator
      (u_create_from_thread prod_unit_model
        ⟨Arena.empty _, Arena.empty _⟩ 7).2 = some 7 ∧
    u_get_task prod_unit_model
      (u_create_from_task prod_unit_model
        ⟨Arena.empty _, Arena.empty _⟩ 9).1.unit_allocator
      (u_create_from_task prod_unit_model
        ⟨Arena.empty _, Arena.empty _⟩ 9).2 = some 9 :=
  u_create_roundtrip prod_unit_model ⟨Arena.empty _, Arena.empty _⟩ 7 9
    (fun _ => rfl) (fun _ => rfl)

/-- C3: the unit-construction entry points allocate and construct the `U`
object exclusively through the static `unit_allocator` (the default heap is
untouched), and `u_free` destroys and deallocates through that same
allocator exactly once per constructed unit: freeing the unit just created
restores the allocator's live set exactly and never touches the heap. -/
theorem unit_allocator_discipline {U : Type} (UM : UnitModel U)
    (mem : UnitMem U) (t k : Nat) (hwf : mem.unit_allocator.wf) :
    ((u_create_from_thread UM mem t).1.heap = mem.heap
      ∧ (u_create_from_thread UM mem t).1.unit_allocator.lookup
          (u_create_from_thread UM mem t).2 = some (UM.ofThread (thread.mk t))
      ∧ (u_free (u_create_from_thread UM mem t).1
          (u_create_from_thread UM mem t).2).1.heap = mem.heap
      ∧ (u_free (u_create_from_thread UM mem t).1
          (u_create_from_thread UM mem t).2).1.unit_allocator.live
          = mem.unit_allocator.live)
    ∧ ((u_create_from_task UM mem k).1.heap = mem.heap
      ∧ (u_create_from_task UM mem k).1.unit_allocator.lookup
          (u_create_from_task UM mem k).2 = some (UM.ofTask (task.mk k))
      ∧ (u_free (u_create_from_task UM mem k).1
          (u_create_from_task UM mem k).2).1.heap = mem.heap
      ∧ (u_free (u_create_from_task UM mem k).1
          (u_create_from_task UM mem k).2).1.unit_allocator.live
          = mem.unit_allocator.live) := by
  refine ⟨⟨rfl, ?_, rfl, ?_⟩, ⟨rfl, ?_, rfl, ?_⟩⟩
  · exact Arena.lookup_alloc _ _
  · exact Arena.free_alloc _ _ hwf
  · exact Arena.lookup_alloc _ _
  · exact Arena.free_alloc _ _ hwf

/-- Witness for C3 at a concrete unit type, empty allocator state and
concrete handles. -/
theorem unit_allocator_discipline_witness :
    ((u_create_from_thread prod_unit_model
        ⟨Arena.empty _, Arena.empty _⟩ 7).1.heap = Arena.empty _
      ∧ (u_create_from_thread prod_unit_model
          ⟨Arena.empty _, Arena.empty _⟩ 7).1.unit_allocator.lookup
          (u_create_from_thread prod_unit_model
            ⟨Arena.empty _, Arena.empty _⟩ 7).2
          = some (prod_unit_model.ofThread (thread.mk 7))
      ∧ (u_free (u_create_from_thread prod_unit_model
            ⟨Arena.empty _, Arena.empty _⟩ 7).1
          (u_create_from_thread prod_unit_model
            ⟨Arena.empty _, Arena.empty _⟩ 7).2).1.heap = Arena.empty _
      ∧ (u_free (u_create_from_thread prod_unit_model
            ⟨Arena.empty _, Arena.empty _⟩ 7).1
          (u_create_from_thread prod_unit_model
            ⟨Arena.empty _, Arena.empty _⟩ 7).2).1.unit_allocator.live
          = (Arena.empty (thread × task)).live)
    ∧ ((u_create_from_task prod_unit_model
          ⟨Arena.empty _, Arena.empty _⟩ 9).1.heap = Arena.empty _
      ∧ (u_create_from_task prod_unit_model
          ⟨Arena.empty _, Arena.empty _⟩ 9).1.unit_allocator.lookup
          (u_create_from_task prod_unit_model
            ⟨Arena.empty _, Arena.empty _⟩ 9).2
          = some (prod_unit_model.ofTask (task.mk 9))
      ∧ (u_free (u_create_from_task prod_unit_model
            ⟨Arena.empty _, Arena.empty _⟩ 9).1
          (u_create_from_task prod_unit_model
            ⟨Arena.empty _, Arena.empty _⟩ 9).2).1.heap = Arena.empty _
      ∧ (u_free (u_create_from_task prod_unit_model
            ⟨Arena.empty _, Arena.empty _⟩ 9).1
          (u_create_from_task prod_unit_model
            ⟨Arena.empty _, Arena.empty _⟩ 9).2).1.unit_allocator.live
          = (Arena.empty (thread × task)).live) :=
  unit_allocator_discipline prod_unit_model ⟨Arena.empty _, Arena.empty _⟩ 7 9
    (fun e he => by simp [Arena.empty] at he)

/-- C10: after `u_free` returns, the caller's `ABT_unit*` slot holds null
(the value written back is `none`), the unit is no longer live in the unit
allocator, and the default heap is untouched. -/
theorem u_free_clears_slot {U : Type} (mem : UnitMem U) (addr : Nat) :
    (u_free mem addr).2 = none
    ∧ (u_free mem addr).1.unit_allocator.lookup addr = none
    ∧ (u_free mem addr).1.heap = mem.heap :=
  ⟨rfl, Arena.lookup_free mem.unit_allocator addr, rfl⟩

/-- Modelled from the spec: `abt_error_get_name` (from `abt_errors.hpp`,
not under `src/`) maps a native error code to its symbolic name. -/
def abt_error_get_name (ret : Int) : String :=
  "ABT_ERR(" ++ toString ret ++ ")"

/-- Modelled from the spec: `abt_error_get_description` (from
`abt_errors.hpp`, not under `src/`) maps a native error code to its
diagnostic description. -/
def abt_error_get_description (ret : Int) : String :=
  "error code " ++ toString ret

/-- `thallium::pool_exception` as built by `TL_POOL_EXCEPTION`: the failing
call's text, the symbolic name of the returned error and its diagnostic
description. -/
structure pool_exception where
  failing_call : String
  error_name : String
  error_description : String
deriving DecidableEq

/-- The `TL_POOL_EXCEPTION(__fun, __ret)` macro: build a `pool_exception`
from the stringified failing call and `abt_error_get_name` /
`abt_error_get_description` of the returned code. -/
def TL_POOL_EXCEPTION (fn : String) (ret : Int) : pool_exception :=
  { failing_call := fn
    error_name := abt_error_get_name ret
    error_description := abt_error_get_description ret }

/-- `pool::access`, the access pattern enabled by a pool. -/
inductive access where
  | priv : access
  | spsc : access
  | mpsc : access
  | spmc : access
  | mpmc : access
deriving DecidableEq

/-- `pool::kind`, the kind of built-in pool. -/
inductive kind where
  | fifo : kind
  | fifo_wait : kind
deriving DecidableEq

/-- The model a custom pool type `P` must adhere to (documentation block of
`pool::create`): a static access pattern, default construction (`init`,
what `P()` produces), and `get_size` / `push` / `pop` / `remove` over a
state of type `σ`.  Units are passed as `ABT_unit` addresses (`Nat`); `pop`
may return a null unit (`none`). -/
structure PoolImpl (σ : Type) where
  access_type : access
  init : σ
  get_size : σ → Nat
  push : σ → Nat → σ
  pop : σ → Option Nat × σ
  remove : σ → Nat → σ

/-- Memory state seen by the pool half of `pool_def`: the static
`pool_allocator` member and, separately, the default heap. -/
structure PoolMem (σ : Type) where
  pool_allocator : Arena σ
  heap : Arena σ
deriving DecidableEq

/-- The Argobots per-pool data registry: `created` lists the live native
pool handles, `data` maps a handle to the opaque `void*` registered by
`ABT_pool_set_data` (here: the address of the `P` instance in the pool
allocator arena). -/
structure AbtPools where
  created : List Nat
  data : List (Nat × Nat)
deriving DecidableEq

/-- Modelled from the spec: `ABT_pool_get_data` returns the opaque data
registered for the pool, or a nonzero error code when the handle is no
longer valid (e.g. the pool has been torn down). -/
def ABT_pool_get_data (ps : AbtPools) (p : Nat) : Except Int Nat :=
  match ps.data.find? (fun e => e.1 == p) with
  | some e => .ok e.2
  | none => .error ABT_ERR_INV_POOL

/-- Modelled from the spec: `ABT_pool_set_data` registers opaque data for a
live pool handle and returns `ABT_SUCCESS`; on an invalid handle it returns
a nonzero error code and registers nothing. -/
def ABT_pool_set_data (ps : AbtPools) (p : Nat) (v : Nat) : Int × AbtPools :=
  if ps.created.contains p then
    (ABT_SUCCESS,
     { ps with data := (p, v) :: ps.data.filter (fun e => decide (e.1 ≠ p)) })
  else
    (ABT_ERR_INV_POOL, ps)

/-- Outcome of one adapter entry point called through the native vtable:
a normal return, a thrown `pool_exception` (from `TL_POOL_ASSERT`), or
undefined behavior (dereference of a pointer that is not live). -/
inductive CallResult (α : Type) where
  | ok : α → CallResult α
  | thrown : pool_exception → CallResult α
  | undef : CallResult α
deriving DecidableEq

/-- `pool_def::p_init`: allocate a `P` through the static `pool_allocator`,
default-construct it, register its address as the pool's opaque data via
`ABT_pool_set_data`, and return that call's status. -/
def p_init {σ : Type} (P : PoolImpl σ) (mem : PoolMem σ) (ps : AbtPools)
    (p : Nat) : Int × PoolMem σ × AbtPools :=
  let al := mem.pool_allocator.alloc P.init
  let r := ABT_pool_set_data ps p al.2
  (r.1, { mem with pool_allocator := al.1 }, r.2)

/-- `pool_def::p_get_size`: `TL_POOL_ASSERT(ABT_pool_get_data(p, &data))`,
cast the data back to `P*` and return `impl->get_size()`. -/
def p_get_size {σ : Type} (P : PoolImpl σ) (mem : PoolMem σ) (ps : AbtPools)
    (p : Nat) : CallResult Nat :=
  match ABT_pool_get_data ps p with
  | .error ret => .thrown (TL_POOL_EXCEPTION "ABT_pool_get_data(p, &data)" ret)
  | .ok d =>
    match mem.pool_allocator.lookup d with
    | none => .undef
    | some s => .ok (P.get_size s)

/-- `pool_def::p_push`: `TL_POOL_ASSERT(ABT_pool_get_data(p, &data))`, cast
the data back to `P*` and call `impl->push(u)` (mutating the pointee). -/
def p_push {σ : Type} (P : PoolImpl σ) (mem : PoolMem σ) (ps : AbtPools)
    (p : Nat) (u : Nat) : CallResult (PoolMem σ) :=
  match ABT_pool_get_data ps p with
  | .error ret => .thrown (TL_POOL_EXCEPTION "ABT_pool_get_data(p, &data)" ret)
  | .ok d =>
    match mem.pool_allocator.lookup d with
    | none => .undef
    | some s =>
      .ok { mem with pool_allocator := mem.pool_allocator.update d (P.push s u) }

/-- `pool_def::p_pop`: `TL_POOL_ASSERT(ABT_pool_get_data(p, &data))`, cast
the data back to `P*`, call `impl->pop()` and return exactly the unit
pointer it produced (possibly null). -/
def p_pop {σ : Type} (P : PoolImpl σ) (mem : PoolMem σ) (ps : AbtPools)
    (p : Nat) : CallResult (Option Nat × PoolMem σ) :=
  match ABT_pool_get_data ps p with
  | .error ret => .thrown (TL_POOL_EXCEPTION "ABT_pool_get_data(p, &data)" ret)
  | .ok d =>
    match mem.pool_allocator.lookup d with
    | none => .undef
    | some s =>
      .ok ((P.pop s).1,
           { mem with pool_allocator := mem.pool_allocator.update d (P.pop s).2 })

/-- `pool_def::p_remove`: call `ABT_pool_get_data`; if it fails, return its
status immediately (without touching `P`); otherwise cast the data back to
`P*`, call `impl->remove(u)` and return `ABT_SUCCESS`. -/
def p_remove {σ : Type} (P : PoolImpl σ) (mem : PoolMem σ) (ps : AbtPools)
    (p : Nat) (u : Nat) : CallResult (Int × PoolMem σ) :=
  match ABT_pool_get_data ps p with
  | .error ret => .ok (ret, mem)
  | .ok d =>
    match mem.pool_allocator.lookup d with
    | none => .undef
    | some s =>
      .ok (ABT_SUCCESS,
           { mem with pool_allocator := mem.pool_allocator.update d (P.remove s u) })

/-- `pool_def::p_free`: call `ABT_pool_get_data`; if it fails, return its
status immediately; otherwise destroy and deallocate the `P` instance
through the static `pool_allocator` and return `ABT_SUCCESS`. -/
def p_free {σ : Type} (mem : PoolMem σ) (ps : AbtPools) (p : Nat) :
    Int × PoolMem σ :=
  match ABT_pool_get_data ps p with
  | .error ret => (ret, mem)
  | .ok d => (ABT_SUCCESS, { mem with pool_allocator := mem.pool_allocator.free d })

/-- `thallium::pool`: wrapper holding the native `ABT_pool` handle
`m_pool`. -/
structure pool where
  m_pool : Nat
deriving DecidableEq

/-- `thallium::managed<pool>` (from `managed.hpp`, not under `src/`).
Modelled from the spec: a scoped-ownership handle whose destructor invokes
the wrapped object's `destroy` exactly once. -/
structure managed (A : Type) where
  m_obj : A
deriving DecidableEq

/-- `make_managed<pool>(p)`: wrap a freshly created native handle. -/
def make_managed (h : Nat) : managed pool := ⟨⟨h⟩⟩

/-- The fixed native vtable `ABT_pool_def` filled in by `pool::create`:
the access pattern plus the thirteen entry points. -/
structure ABT_pool_def (σ U : Type) where
  access : access
  u_get_type : Arena U → Nat → Option unit_type
  u_get_thread : Arena U → Nat → Option Nat
  u_get_task : Arena U → Nat → Option Nat
  u_is_in_pool : Arena U → Nat → Option Bool
  u_create_from_thread : UnitMem U → Nat → UnitMem U × Nat
  u_create_from_task : UnitMem U → Nat → UnitMem U × Nat
  u_free : UnitMem U → Nat → UnitMem U × Option Nat
  p_init : PoolMem σ → AbtPools → Nat → Int × PoolMem σ × AbtPools
  p_get_size : PoolMem σ → AbtPools → Nat → CallResult Nat
  p_push : PoolMem σ → AbtPools → Nat → Nat → CallResult (PoolMem σ)
  p_pop : PoolMem σ → AbtPools → Nat → CallResult (Option Nat × PoolMem σ)
  p_remove : PoolMem σ → AbtPools → Nat → Nat → CallResult (Int × PoolMem σ)
  p_free : PoolMem σ → AbtPools → Nat → Int × PoolMem σ

/-- Global Argobots creation state: the next fresh (non-null) pool handle
and the remaining resource budget. -/
structure AbtGlobal where
  next_pool : Nat
  budget : Nat
deriving DecidableEq

/-- Modelled from the spec: `ABT_pool_create` registers a custom pool
definition and yields a fresh non-null handle; it never fails except on
resource exhaustion, in which case it returns a nonzero error code. -/
def ABT_pool_create {σ U : Type} (d : ABT_pool_def σ U) (g : AbtGlobal) :
    Except Int (AbtGlobal × Nat) :=
  if g.budget = 0 then .error ABT_ERR_MEM
  else .ok ({ next_pool := g.next_pool + 1, budget := g.budget - 1 }, g.next_pool)

/-- Modelled from the spec: `ABT_pool_create_basic` creates a built-in pool
of the given kind and access pattern and yields a fresh non-null handle; it
never fails except on resource exhaustion. -/
def ABT_pool_create_basic (k : kind) (a : access) (automatic : Bool)
    (g : AbtGlobal) : Except Int (AbtGlobal × Nat) :=
  if g.budget = 0 then .error ABT_ERR_MEM
  else .ok ({ next_pool := g.next_pool + 1, budget := g.budget - 1 }, g.next_pool)

/-- The `ABT_pool_def` filled in by `pool::create<P, U, Palloc, Ualloc>`:
`def.access = P::access_type`, all other slots are `pool_def`'s static
member functions. -/
def make_pool_def {σ U : Type} (P : PoolImpl σ) (UM : UnitModel U) :
    ABT_pool_def σ U :=
  { access := P.access_type
    u_get_type := u_get_type UM
    u_get_thread := u_get_thread UM
    u_get_task := u_get_task UM
    u_is_in_pool := u_is_in_pool UM
    u_create_from_thread := u_create_from_thread UM
    u_create_from_task := u_create_from_task UM
    u_free := u_free
    p_init := p_init P
    p_get_size := p_get_size P
    p_push := p_push P
    p_pop := p_pop P
    p_remove := p_remove P
    p_free := p_free }

/-- `pool::create<P, U, Palloc, Ualloc>()`: build the `ABT_pool_def` from
the adapter, then `TL_POOL_ASSERT(ABT_pool_create(...))` and wrap the new
handle in a `managed<pool>`. -/
def pool.create_custom {σ U : Type} (P : PoolImpl σ) (UM : UnitModel U)
    (g : AbtGlobal) : Except pool_exception (AbtGlobal × managed pool) :=
  match ABT_pool_create (make_pool_def P UM) g with
  | .ok r => .ok (r.1, make_managed r.2)
  | .error ret =>
    .error (TL_POOL_EXCEPTION "ABT_pool_create(&def, ABT_POOL_CONFIG_NULL, &p)" ret)

/-- `pool::create(access, kind)`: `TL_POOL_ASSERT(ABT_pool_create_basic(...))`
and wrap the new handle in a `managed<pool>`. -/
def pool.create_builtin (a : access) (k : kind) (g : AbtGlobal) :
    Except pool_exception (AbtGlobal × managed pool) :=
  match ABT_pool_create_basic k a false g with
  | .ok r => .ok (r.1, make_managed r.2)
  | .error ret =>
    .error (TL_POOL_EXCEPTION
      "ABT_pool_create_basic((ABT_pool_kind)k, (ABT_pool_access)a, ABT_FALSE, &p)"
      ret)

/-- A concrete custom pool adhering to the documented model: a plain
in-order list container. -/
def list_pool : PoolImpl (List Nat) where
  access_type := access.mpmc
  init := []
  get_size s := s.length
  push s u := s ++ [u]
  pop s := match s with
    | [] => (none, [])
    | x :: xs => (some x, xs)
  remove s u := s.filter (fun x => decide (x ≠ u))

/-- Concrete pool-allocator state for witnesses: one live `P` instance (the
list `[10, 20]`) at address 1. -/
def witness_pool_mem : PoolMem (List Nat) :=
  ⟨⟨2, [(1, [10, 20])]⟩, Arena.empty _⟩

/-- Concrete Argobots pool registry for witnesses: pool handle 3 is live
and its opaque data is address 1. -/
def witness_abt_pools : AbtPools := ⟨[3], [(3, 1)]⟩

/-- Counterexample to C1 as stated: on a torn-down pool (handle 1 absent
from the registry) `p_remove` does NOT return success; it returns the
lookup's error code `ABT_ERR_INV_POOL`, which differs from `ABT_SUCCESS`. -/
theorem p_remove_no_op_success_counterexample :
    p_remove list_pool ⟨Arena.empty _, Arena.empty _⟩ ⟨[], []⟩ 1 2
      = CallResult.ok (ABT_ERR_INV_POOL, ⟨Arena.empty _, Arena.empty _⟩)
    ∧ ABT_ERR_INV_POOL ≠ ABT_SUCCESS := by
  refine ⟨rfl, ?_⟩
  simp [ABT_ERR_INV_POOL, ABT_SUCCESS]

/-- C1 amended: when the lookup of the pool's opaque per-instance state
fails, `p_remove` returns without calling `P::remove` (the memory state is
untouched), but it propagates the lookup's nonzero error code instead of
reporting success. -/
theorem p_remove_lookup_failure {σ : Type} (P : PoolImpl σ) (mem : PoolMem σ)
    (ps : AbtPools) (p u : Nat) (ret : Int)
    (h : ABT_pool_get_data ps p = .error ret) :
    p_remove P mem ps p u = CallResult.ok (ret, mem) ∧ ret ≠ ABT_SUCCESS := by
  constructor
  · simp [p_remove, h]
  · have : ret = ABT_ERR_INV_POOL := by
      unfold ABT_pool_get_data at h
      cases hf : ps.data.find? (fun e => e.1 == p) with
      | none => simp [hf] at h; exact h.symm
      | some e => simp [hf] at h
    rw [this]
    simp [ABT_ERR_INV_POOL, ABT_SUCCESS]

/-- Witness for the amended C1 at a concrete torn-down pool handle. -/
theorem p_remove_lookup_failure_witness :
    p_remove list_pool ⟨Arena.empty _, Arena.empty _⟩ ⟨[], []⟩ 4 5
      = CallResult.ok (ABT_ERR_INV_POOL, ⟨Arena.empty _, Arena.empty _⟩)
    ∧ ABT_ERR_INV_POOL ≠ ABT_SUCCESS :=
  p_remove_lookup_failure list_pool ⟨Arena.empty _, Arena.empty _⟩ ⟨[], []⟩
    4 5 ABT_ERR_INV_POOL rfl

/-- C5: when the per-instance state lookup succeeds, `p_push`, `p_pop` and
`p_get_size` resolve the opaque data back to the `P` instance and forward
exactly to `P::push`, `P::pop` and `P::get_size`: `p_pop` returns precisely
the (possibly null) pointer `P::pop` returns, `p_get_size` returns
precisely `P::get_size`, and the only state change is the one `P` makes. -/
theorem adapter_pure_forwarding {σ : Type} (P : PoolImpl σ) (mem : PoolMem σ)
    (ps : AbtPools) (p u d : Nat) (s : σ)
    (hd : ABT_pool_get_data ps p = .ok d)
    (hs : mem.pool_allocator.lookup d = some s) :
    p_get_size P mem ps p = CallResult.ok (P.get_size s)
    ∧ p_push P mem ps p u = CallResult.ok
        { mem with pool_allocator := mem.pool_allocator.update d (P.push s u) }
    ∧ p_pop P mem ps p = CallResult.ok ((P.pop s).1,
        { mem with pool_allocator := mem.pool_allocator.update d (P.pop s).2 }) := by
  refine ⟨?_, ?_, ?_⟩
  · simp [p_get_size, hd, hs]
  · simp [p_push, hd, hs]
  · simp [p_pop, hd, hs]

/-- Witness for C5 at a concrete custom pool whose state is `[10, 20]`. -/
theorem adapter_pure_forwarding_witness :
    p_get_size list_pool witness_pool_mem witness_abt_pools 3
      = CallResult.ok (list_pool.get_size [10, 20])
    ∧ p_push list_pool witness_pool_mem witness_abt_pools 3 7
      = CallResult.ok { witness_pool_mem with
          pool_allocator :=
            witness_pool_mem.pool_allocator.update 1 (list_pool.push [10, 20] 7) }
    ∧ p_pop list_pool witness_pool_mem witness_abt_pools 3
      = CallResult.ok ((list_pool.pop [10, 20]).1,
        { witness_pool_mem with
          pool_allocator :=
            witness_pool_mem.pool_allocator.update 1 (list_pool.pop [10, 20]).2 }) :=
  adapter_pure_forwarding list_pool witness_pool_mem witness_abt_pools 3 7 1
    [10, 20] rfl rfl

/-- C6: `pool::create<P,U>` installs `P::access_type` as the def's access
pattern and installs the adapter's entry points in every vtable slot; when
the native creation call fails it raises a `pool_exception` naming that
call; and `p_init` allocates the per-pool `P` instance through the pool
allocator (never the heap), registers its address as the pool's opaque
state, and returns the registration call's status. -/
theorem create_custom_spec {σ U : Type} (P : PoolImpl σ) (UM : UnitModel U)
    (g : AbtGlobal) (mem : PoolMem σ) (ps : AbtPools) (p : Nat) :
    ((make_pool_def P UM).access = P.access_type
      ∧ (make_pool_def P UM).u_get_type = u_get_type UM
      ∧ (make_pool_def P UM).u_get_thread = u_get_thread UM
      ∧ (make_pool_def P UM).u_get_task = u_get_task UM
      ∧ (make_pool_def P UM).u_is_in_pool = u_is_in_pool UM
      ∧ (make_pool_def P UM).u_create_from_thread = u_create_from_thread UM
      ∧ (make_pool_def P UM).u_create_from_task = u_create_from_task UM
      ∧ (make_pool_def P UM).u_free = u_free
      ∧ (make_pool_def P UM).p_init = p_init P
      ∧ (make_pool_def P UM).p_get_size = p_get_size P
      ∧ (make_pool_def P UM).p_push = p_push P
      ∧ (make_pool_def P UM).p_pop = p_pop P
      ∧ (make_pool_def P UM).p_remove = p_remove P
      ∧ (make_pool_def P UM).p_free = p_free)
    ∧ (g.budget = 0 → pool.create_custom P UM g
        = .error (TL_POOL_EXCEPTION
            "ABT_pool_create(&def, ABT_POOL_CONFIG_NULL, &p)" ABT_ERR_MEM))
    ∧ ((p_init P mem ps p).1 = (ABT_pool_set_data ps p mem.pool_allocator.next).1
      ∧ (p_init P mem ps p).2.1.pool_allocator.lookup mem.pool_allocator.next
          = some P.init
      ∧ (p_init P mem ps p).2.1.heap = mem.heap
      ∧ (p_init P mem ps p).2.2 = (ABT_pool_set_data ps p mem.pool_allocator.next).2
      ∧ (ps.created.contains p = true →
          ABT_pool_get_data (p_init P mem ps p).2.2 p
            = .ok mem.pool_allocator.next)) := by
  refine ⟨⟨rfl, rfl, rfl, rfl, rfl, rfl, rfl, rfl, rfl, rfl, rfl, rfl, rfl, rfl⟩,
    ?_, rfl, Arena.lookup_alloc _ _, rfl, rfl, ?_⟩
  · intro hb
    simp [pool.create_custom, ABT_pool_create, hb]
  · intro hc
    have hm : p ∈ ps.created := by simpa using hc
    simp [p_init, ABT_pool_set_data, hm, ABT_pool_get_data, Arena.alloc]

/-- Witness for C6: creation failure at budget 0 raises the creation error,
and `p_init` on live pool handle 3 registers the fresh `P` address. -/
theorem create_custom_spec_witness :
    pool.create_custom list_pool prod_unit_model ⟨1, 0⟩
      = .error (TL_POOL_EXCEPTION
          "ABT_pool_create(&def, ABT_POOL_CONFIG_NULL, &p)" ABT_ERR_MEM)
    ∧ ABT_pool_get_data
        (p_init list_pool witness_pool_mem witness_abt_pools 3).2.2 3
        = .ok witness_pool_mem.pool_allocator.next := by
  have h := create_custom_spec list_pool prod_unit_model ⟨1, 0⟩
    witness_pool_mem witness_abt_pools 3
  exact ⟨h.2.1 rfl, h.2.2.2.2.2.2 rfl⟩

/-- C2: creating a built-in pool either succeeds, returning an owned
(managed) pool wrapping the fresh non-null native handle with the creation
budget consumed exactly once, or (exactly on resource exhaustion) raises a
`pool_exception` carrying the failing native call's text and the error's
symbolic name and diagnostic description; it never returns a null pool on
success. -/
theorem create_builtin_spec (g : AbtGlobal) (a : access) (k : kind)
    (h0 : 0 < g.next_pool) :
    (g.budget ≠ 0 →
      pool.create_builtin a k g
        = .ok (⟨g.next_pool + 1, g.budget - 1⟩, make_managed g.next_pool)
      ∧ (make_managed g.next_pool).m_obj.m_pool ≠ ABT_POOL_NULL)
    ∧ (g.budget = 0 →
      pool.create_builtin a k g
        = .error
            { failing_call :=
                "ABT_pool_create_basic((ABT_pool_kind)k, (ABT_pool_access)a, ABT_FALSE, &p)"
              error_name := abt_error_get_name ABT_ERR_MEM
              error_description := abt_error_get_description ABT_ERR_MEM }) := by
  constructor
  · intro hb
    constructor
    · simp [pool.create_builtin, ABT_pool_create_basic, hb]
    · simp [make_managed, ABT_POOL_NULL]
      omega
  · intro hb
    simp [pool.create_builtin, ABT_pool_create_basic, hb, TL_POOL_EXCEPTION]

/-- Witness for C2: success at budget 2, failure carrying the diagnostic
fields at budget 0. -/
theorem create_builtin_spec_witness :
    (pool.create_builtin access.mpmc kind.fifo ⟨1, 2⟩
        = .ok (⟨2, 1⟩, make_managed 1)
      ∧ (make_managed 1).m_obj.m_pool ≠ ABT_POOL_NULL)
    ∧ pool.create_builtin access.spsc kind.fifo_wait ⟨1, 0⟩
        = .error
            { failing_call :=
                "ABT_pool_create_basic((ABT_pool_kind)k, (ABT_pool_access)a, ABT_FALSE, &p)"
              error_name := abt_error_get_name ABT_ERR_MEM
              error_description := abt_error_get_description ABT_ERR_MEM } :=
  ⟨(create_builtin_spec ⟨1, 2⟩ access.mpmc kind.fifo (by decide)).1
      (by decide),
   (create_builtin_spec ⟨1, 0⟩ access.spsc kind.fifo_wait (by decide)).2 rfl⟩

/-- `pool::pool(pool&&)`: steal the source's handle and leave the source
null.  Returns (constructed pool, moved-from pool). -/
def pool.move_construct (other : pool) : pool × pool :=
  (⟨other.m_pool⟩, ⟨ABT_POOL_NULL⟩)

/-- `pool::operator=(pool&&)`: on self-assignment (`this == &other`,
modelled by `same`) return unchanged; otherwise steal the handle and leave
the source null.  Returns (assigned-to pool, moved-from pool). -/
def pool.move_assign (same : Bool) (tgt src : pool) : pool × pool :=
  if same then (tgt, src) else (⟨src.m_pool⟩, ⟨ABT_POOL_NULL⟩)

/-- `pool::destroy()`: call `ABT_pool_free(&m_pool)` only when the handle
is not null.  The first component counts the native free calls made. -/
def pool.destroy (p : pool) : Nat × pool :=
  if p.m_pool = ABT_POOL_NULL then (0, p) else (1, ⟨ABT_POOL_NULL⟩)

/-- C9: move construction and move assignment transfer the native handle
and leave the moved-from pool null, self-move-assignment leaves the pool
unchanged, `destroy` on a null pool performs no native free, and after a
move the total number of native free calls made by destroying both handles
equals the number for the original handle alone (at most one per created
pool). -/
theorem pool_move_destroy_spec (p q : pool) :
    pool.move_construct p = (⟨p.m_pool⟩, ⟨ABT_POOL_NULL⟩)
    ∧ pool.move_assign false q p = (⟨p.m_pool⟩, ⟨ABT_POOL_NULL⟩)
    ∧ pool.move_assign true p p = (p, p)
    ∧ pool.destroy ⟨ABT_POOL_NULL⟩ = (0, ⟨ABT_POOL_NULL⟩)
    ∧ (pool.destroy (pool.move_construct p).1).1
        + (pool.destroy (pool.move_construct p).2).1
      = (pool.destroy p).1 := by
  refine ⟨rfl, rfl, by simp [pool.move_assign], by simp [pool.destroy], ?_⟩
  by_cases h : p.m_pool = ABT_POOL_NULL
  · simp [pool.move_construct, pool.destroy, h]
  · simp [pool.move_construct, pool.destroy, h]

/-- Lifecycle state of a native work unit (spec section 4.3). -/
inductive unit_state where
  | created : unit_state
  | pooled : unit_state
  | running : unit_state
  | suspended : unit_state
  | joined : unit_state
deriving DecidableEq

/-- A native thread/task record: its lifecycle state and the callable it is
armed with (an identifier standing for the function pointer + argument). -/
structure abt_unit_rec where
  state : unit_state
  fn : Nat
deriving DecidableEq

/-- Modelled from the spec: the shared behavior of `ABT_thread_revive` and
`ABT_task_revive` (Argobots, not under `src/`): a unit in the joined
terminal state is re-armed with the new callable and pushed back into the
pool, with no new unit allocated; any other state yields the given nonzero
error code and changes nothing. -/
def ABT_unit_revive (err : Int) (units : List (Nat × abt_unit_rec))
    (q : List Nat) (fn t : Nat) :
    Except Int (List (Nat × abt_unit_rec) × List Nat) :=
  match units.find? (fun e => e.1 == t) with
  | none => .error err
  | some e =>
    if e.2.state = unit_state.joined then
      .ok (units.map
             (fun e2 => if e2.1 = t then (t, ⟨unit_state.pooled, fn⟩) else e2),
           q ++ [t])
    else .error err

/-- Modelled from the spec: `ABT_thread_revive`. -/
def ABT_thread_revive (ths : List (Nat × abt_unit_rec)) (q : List Nat)
    (fn t : Nat) : Except Int (List (Nat × abt_unit_rec) × List Nat) :=
  ABT_unit_revive ABT_ERR_INV_THREAD ths q fn t

/-- Modelled from the spec: `ABT_task_revive`. -/
def ABT_task_revive (tks : List (Nat × abt_unit_rec)) (q : List Nat)
    (fn t : Nat) : Except Int (List (Nat × abt_unit_rec) × List Nat) :=
  ABT_unit_revive ABT_ERR_INV_TASK tks q fn t

/-- `pool::revive_thread(t, fun)`: wrap the callable and
`TL_POOL_ASSERT(ABT_thread_revive(...))`. -/
def pool.revive_thread (ths : List (Nat × abt_unit_rec)) (q : List Nat)
    (fn t : Nat) :
    Except pool_exception (List (Nat × abt_unit_rec) × List Nat) :=
  match ABT_thread_revive ths q fn t with
  | .ok r => .ok r
  | .error ret =>
    .error (TL_POOL_EXCEPTION
      "ABT_thread_revive(m_pool, forward_work_unit, reinterpret_cast<void*>(fp), &(t.m_thread))"
      ret)

/-- `pool::revive_task(t, fun)`: wrap the callable and
`TL_POOL_ASSERT(ABT_task_revive(...))`. -/
def pool.revive_task (tks : List (Nat × abt_unit_rec)) (q : List Nat)
    (fn t : Nat) :
    Except pool_exception (List (Nat × abt_unit_rec) × List Nat) :=
  match ABT_task_revive tks q fn t with
  | .ok r => .ok r
  | .error ret =>
    .error (TL_POOL_EXCEPTION
      "ABT_task_revive(m_pool, forward_work_unit, reinterpret_cast<void*>(fp), &(t.m_task))"
      ret)

/-- Re-arming one entry in a unit table preserves the set of unit handles
(no unit is allocated or lost). -/
theorem revive_keys_preserved (units : List (Nat × abt_unit_rec))
    (t fn : Nat) :
    (units.map
       (fun e2 => if e2.1 = t then (t, (⟨unit_state.pooled, fn⟩ : abt_unit_rec))
                  else e2)).map Prod.fst = units.map Prod.fst := by
  rw [List.map_map]
  apply List.map_congr_left
  intro e _
  by_cases h : e.1 = t
  · simp [h]
  · simp [h]

/-- C7: `revive_thread` / `revive_task` on a unit in the joined terminal
state re-arm the existing unit with the new callable and re-push its handle
into the pool, allocating no new unit (the set of unit handles is
unchanged); on a unit not in that state they raise an error instead of
succeeding. -/
theorem revive_spec (ths tks : List (Nat × abt_unit_rec)) (q qt : List Nat)
    (fn ft t k : Nat) (r rk : abt_unit_rec)
    (hf : ths.find? (fun e => e.1 == t) = some (t, r))
    (hk : tks.find? (fun e => e.1 == k) = some (k, rk)) :
    (r.state = unit_state.joined →
      pool.revive_thread ths q fn t
        = .ok (ths.map (fun e2 =>
            if e2.1 = t then (t, ⟨unit_state.pooled, fn⟩) else e2), q ++ [t])
      ∧ (ths.map (fun e2 =>
            if e2.1 = t then (t, (⟨unit_state.pooled, fn⟩ : abt_unit_rec))
            else e2)).map Prod.fst = ths.map Prod.fst)
    ∧ (r.state ≠ unit_state.joined →
      pool.revive_thread ths q fn t
        = .error (TL_POOL_EXCEPTION
            "ABT_thread_revive(m_pool, forward_work_unit, reinterpret_cast<void*>(fp), &(t.m_thread))"
            ABT_ERR_INV_THREAD))
    ∧ (rk.state = unit_state.joined →
      pool.revive_task tks qt ft k
        = .ok (tks.map (fun e2 =>
            if e2.1 = k then (k, ⟨unit_state.pooled, ft⟩) else e2), qt ++ [k])
      ∧ (tks.map (fun e2 =>
            if e2.1 = k then (k, (⟨unit_state.pooled, ft⟩ : abt_unit_rec))
            else e2)).map Prod.fst = tks.map Prod.fst)
    ∧ (rk.state ≠ unit_state.joined →
      pool.revive_task tks qt ft k
        = .error (TL_POOL_EXCEPTION
            "ABT_task_revive(m_pool, forward_work_unit, reinterpret_cast<void*>(fp), &(t.m_task))"
            ABT_ERR_INV_TASK)) := by
  refine ⟨?_, ?_, ?_, ?_⟩
  · intro hs
    refine ⟨?_, revive_keys_preserved ths t fn⟩
    simp [pool.revive_thread, ABT_thread_revive, ABT_unit_revive, hf, hs]
  · intro hs
    simp [pool.revive_thread, ABT_thread_revive, ABT_unit_revive, hf, hs]
  · intro hs
    refine ⟨?_, revive_keys_preserved tks k ft⟩
    simp [pool.revive_task, ABT_task_revive, ABT_unit_revive, hk, hs]
  · intro hs
    simp [pool.revive_task, ABT_task_revive, ABT_unit_revive, hk, hs]

/-- Witness for C7: reviving a joined thread (handle 2) succeeds and
re-pushes it; reviving a running task (handle 4) raises the error. -/
theorem revive_spec_witness :
    pool.revive_thread [(2, ⟨unit_state.joined, 0⟩)] [] 9 2
      = .ok ([(2, ⟨unit_state.pooled, 9⟩)], [2])
    ∧ pool.revive_task [(4, ⟨unit_state.running, 1⟩)] [] 8 4
      = .error (TL_POOL_EXCEPTION
          "ABT_task_revive(m_pool, forward_work_unit, reinterpret_cast<void*>(fp), &(t.m_task))"
          ABT_ERR_INV_TASK) := by
  have h := revive_spec [(2, ⟨unit_state.joined, 0⟩)]
    [(4, ⟨unit_state.running, 1⟩)] [] [] 9 8 2 4
    ⟨unit_state.joined, 0⟩ ⟨unit_state.running, 1⟩ rfl rfl
  refine ⟨?_, h.2.2.2 (by decide)⟩
  have h1 := (h.1 rfl).1
  simpa using h1

/-- Modelled from the spec: the state of a built-in Argobots pool — its
kind and the FIFO queue of unit handles (Argobots' implementation is not
under `src/`). -/
structure builtin_pool where
  p_kind : kind
  queue : List Nat
deriving DecidableEq

/-- Modelled from the spec: `ABT_pool_push` on a built-in FIFO pool
enqueues the unit at the tail and succeeds. -/
def ABT_pool_push (s : builtin_pool) (u : Nat) : Int × builtin_pool :=
  (ABT_SUCCESS, { s with queue := s.queue ++ [u] })

/-- Modelled from the spec: `ABT_pool_pop` on a built-in FIFO pool dequeues
from the head, returning the null unit (`none`) on an empty pool, and
succeeds. -/
def ABT_pool_pop (s : builtin_pool) : Int × Option Nat × builtin_pool :=
  match s.queue with
  | [] => (ABT_SUCCESS, none, s)
  | x :: xs => (ABT_SUCCESS, some x, { s with queue := xs })

/-- `pool::push<U>(unit)`: `TL_POOL_ASSERT(ABT_pool_push(...))`. -/
def pool.push (s : builtin_pool) (u : Nat) :
    Except pool_exception builtin_pool :=
  let r := ABT_pool_push s u
  if r.1 = ABT_SUCCESS then .ok r.2
  else .error (TL_POOL_EXCEPTION
    "ABT_pool_push(m_pool, reinterpret_cast<ABT_unit>(unit))" r.1)

/-- `pool::pop<U>()`: `TL_POOL_ASSERT(ABT_pool_pop(m_pool, &u))`, returning
the popped unit handle (null cast to a null `U*`). -/
def pool.pop (s : builtin_pool) :
    Except pool_exception (Option Nat × builtin_pool) :=
  let r := ABT_pool_pop s
  if r.1 = ABT_SUCCESS then .ok r.2
  else .error (TL_POOL_EXCEPTION "ABT_pool_pop(m_pool, &u)" r.1)

/-- One operation issued by the single producer (`push_op`) or the single
consumer (`pop_op`) of an SPSC history, sequentialized. -/
inductive PoolOp where
  | push_op : Nat → PoolOp
  | pop_op : PoolOp
deriving DecidableEq

/-- A run over a built-in pool: current pool state, units pushed so far (in
order), units returned by pops so far (in order). -/
structure RunState where
  s : builtin_pool
  pushed : List Nat
  popped : List Nat
deriving DecidableEq

/-- Execute one operation through the `pool` wrapper. -/
def run_op (st : RunState) (op : PoolOp) : RunState :=
  match op with
  | .push_op u =>
    match pool.push st.s u with
    | .ok s2 => { st with s := s2, pushed := st.pushed ++ [u] }
    | .error _ => st
  | .pop_op =>
    match pool.pop st.s with
    | .ok (some u, s2) => { st with s := s2, popped := st.popped ++ [u] }
    | .ok (none, s2) => { st with s := s2 }
    | .error _ => st

/-- Execute a sequentialized SPSC history. -/
def run_ops (st : RunState) (ops : List PoolOp) : RunState :=
  ops.foldl run_op st

/-- The FIFO invariant: the units popped so far followed by the queue's
current content are exactly the units pushed so far, in push order. -/
theorem run_ops_fifo_invariant (ops : List PoolOp) (st : RunState)
    (h : st.popped ++ st.s.queue = st.pushed) :
    (run_ops st ops).popped ++ (run_ops st ops).s.queue
      = (run_ops st ops).pushed := by
  induction ops generalizing st with
  | nil => exact h
  | cons op rest ih =>
    apply ih
    cases op with
    | push_op u =>
      simp only [run_op, pool.push, ABT_pool_push]
      simp only [← h]
      simp [List.append_assoc]
    | pop_op =>
      cases hq : st.s.queue with
      | nil =>
        simp only [run_op, pool.pop, ABT_pool_pop, hq]
        simpa [hq] using h
      | cons x xs =>
        simp only [run_op, pool.pop, ABT_pool_pop, hq]
        simp only [← h, hq]
        simp

/-- C8: for a built-in pool created with kind `fifo` and used by a single
producer and a single consumer, pops return units in exactly push order:
after any sequentialized history starting from the empty pool, the popped
sequence followed by the residual queue equals the pushed sequence, and in
particular the popped sequence is the pushed sequence's prefix of its
length. -/
theorem fifo_push_pop_order (ops : List PoolOp) :
    (run_ops ⟨⟨kind.fifo, []⟩, [], []⟩ ops).popped
        ++ (run_ops ⟨⟨kind.fifo, []⟩, [], []⟩ ops).s.queue
      = (run_ops ⟨⟨kind.fifo, []⟩, [], []⟩ ops).pushed
    ∧ (run_ops ⟨⟨kind.fifo, []⟩, [], []⟩ ops).popped
      = (run_ops ⟨⟨kind.fifo, []⟩, [], []⟩ ops).pushed.take
          (run_ops ⟨⟨kind.fifo, []⟩, [], []⟩ ops).popped.length := by
  have h := run_ops_fifo_invariant ops ⟨⟨kind.fifo, []⟩, [], []⟩ rfl
  refine ⟨h, ?_⟩
  rw [← h]
  exact (List.take_left _ _).symm
